import Mathlib

/-!
Verification of the rule-based rock identification pipeline of the RockExport
repository (source: `supabase/functions/identify-rock/index.ts`).

The shallow embedding below translates the three components the claims talk
about — the characteristic extractor (`parseCharacteristics`), the ordered
decision-list classifier (`classifyRock`) and the enrichment stage
(`enhanceRockData`) — into executable Lean definitions.  JavaScript string
primitives used by the source (`toLowerCase`, `split(/\s+/)`, `join(' ')`,
regex tests that are alternations of literal substrings, and the
array-truthiness semantics of `||`) are modelled explicitly.
-/

/-- The set of characters matched by the JavaScript regex class `\s`
(used by `description.split(/\s+/)`). -/
def jsWhitespace (c : Char) : Bool :=
  c.val == 0x20 || c.val == 0x09 || c.val == 0x0a || c.val == 0x0d ||
  c.val == 0x0b || c.val == 0x0c || c.val == 0xa0 || c.val == 0x1680 ||
  (0x2000 ≤ c.val && c.val ≤ 0x200a) ||
  c.val == 0x2028 || c.val == 0x2029 || c.val == 0x202f || c.val == 0x205f ||
  c.val == 0x3000 || c.val == 0xfeff

/-- JavaScript line terminators, which the regex `.` does NOT match. -/
def jsLineTerm (c : Char) : Bool :=
  c.val == 0x0a || c.val == 0x0d || c.val == 0x2028 || c.val == 0x2029

/-- `leads pat l` : `pat` occurs at the very start of `l`. -/
def leads : List Char → List Char → Bool
  | [], _ => true
  | _ :: _, [] => false
  | p :: ps, c :: cs => p == c && leads ps cs

/-- `occursIn pat l` : `pat` occurs contiguously somewhere in `l`
(the semantics of testing a string against a literal regex fragment). -/
def occursIn (pat : List Char) : List Char → Bool
  | [] => pat.isEmpty
  | c :: cs => leads pat (c :: cs) || occursIn pat cs

/-- `containsStr s pat` : literal substring test, i.e. `s.match(/pat/)`
is truthy for a pattern with no metacharacters. -/
def containsStr (s pat : String) : Bool :=
  occursIn pat.data s.data

/-- `matchAny s pats` models `s.match(/p1|p2|…/)` for literal alternatives. -/
def matchAny (s : String) (pats : List String) : Bool :=
  pats.any (fun p => containsStr s p)

/-- `scanThen b l` : `b` occurs in `l` at some position reachable from the
start of `l` without crossing a line terminator (the tail of a `.*b` match). -/
def scanThen (b : List Char) : List Char → Bool
  | [] => leads b []
  | c :: cs => leads b (c :: cs) || (!jsLineTerm c && scanThen b cs)

/-- `seekAfter a bs l` : some occurrence of `a` in `l` is followed, with only
non-line-terminator characters in between, by an occurrence of one of `bs`. -/
def seekAfter (a : List Char) (bs : List (List Char)) : List Char → Bool
  | [] => leads a [] && bs.any (fun b => scanThen b [])
  | c :: cs =>
    (leads a (c :: cs) && bs.any (fun b => scanThen b ((c :: cs).drop a.length))) ||
    seekAfter a bs cs

/-- `dotStarAny s a bs` models `s.match(/a.*(b1|b2)/)` for literal `a`, `bi`
(JavaScript `.` does not match line terminators). -/
def dotStarAny (s a : String) (bs : List String) : Bool :=
  seekAfter a.data (bs.map (fun b => b.data)) s.data

/-- Models JavaScript `toLowerCase()` (the inputs of interest are ASCII). -/
def lowerStr (s : String) : String :=
  String.mk (s.data.map Char.toLower)

/-- The maximal runs of non-whitespace characters of a character list,
in order. -/
def nonWsRuns (cs : List Char) : List (List Char) :=
  (cs.foldr
    (fun c acc =>
      if jsWhitespace c then [] :: acc
      else
        match acc with
        | [] => [[c]]
        | t :: ts => (c :: t) :: ts)
    []).filter (fun r => !r.isEmpty)

/-- Models JavaScript `s.split(/\s+/)`: the (possibly empty) segments between
maximal whitespace runs.  A leading (resp. trailing) whitespace run
contributes a leading (resp. trailing) empty segment, and `"".split(/\s+/)`
is `[""]`. -/
def jsSplitWS (s : String) : List String :=
  match s.data with
  | [] => [""]
  | c :: rest =>
    let runs := (nonWsRuns (c :: rest)).map String.mk
    let pre : List String := if jsWhitespace c then [""] else []
    let post : List String :=
      if jsWhitespace ((c :: rest).getLast (List.cons_ne_nil c rest)) then [""] else []
    pre ++ runs ++ post

/-- Models JavaScript `keywords.join(' ')`. -/
def joinSpace : List String → String
  | [] => ""
  | [s] => s
  | s :: rest => s ++ " " ++ joinSpace rest

/-- The structured bag of characteristics produced by `parseCharacteristics`
(source lines 60–120).  `dominantColors` mirrors the pass-through of
`imageAnalysis.colors`; it is never read by the classifier. -/
structure Characteristics where
  texture : String
  color : String
  hardness : String
  luster : String
  crystalSize : String
  keywords : List String
  dominantColors : Option (List String)
deriving DecidableEq

/-- One extraction rule: a predicate on the lowercased description text and
the label assigned to the dimension when the predicate matches. -/
def ExtractRule : Type := (String → Bool) × String

/-- Sequential overwrite-on-match application of an ordered rule list,
starting from `"unknown"` — exactly the semantics of the source's chain of
independent `if (desc.match(…)) characteristics.field = label` statements. -/
def applyRules (rules : List ExtractRule) (d : String) : String :=
  rules.foldl (fun acc r => if r.1 d then r.2 else acc) "unknown"

/-- Texture rules, in declaration order (source lines 78–84). -/
def textureRules : List ExtractRule :=
  [ (fun d => matchAny d ["coarse", "rough", "bumpy", "granular", "grainy"], "coarse"),
    (fun d => matchAny d ["fine", "smooth", "silky", "powdery"], "fine"),
    (fun d => matchAny d ["glassy", "glass", "shiny", "reflective"], "glassy"),
    (fun d => matchAny d ["porous", "holes", "bubbles", "foam", "vesicular", "pumice"], "vesicular"),
    (fun d => matchAny d ["layered", "layers", "banded", "striped", "sediment"], "layered"),
    (fun d => matchAny d ["foliated", "flaky", "scaly", "sheet"], "foliated"),
    (fun d => matchAny d ["crystalline", "crystal", "sparkl"], "crystalline") ]

/-- Color rules, in declaration order (source lines 87–94). -/
def colorRules : List ExtractRule :=
  [ (fun d => matchAny d ["dark", "black", "charcoal", "deep"], "dark"),
    (fun d => matchAny d ["light", "white", "pale", "cream", "beige"], "light"),
    (fun d => matchAny d ["red", "pink", "reddish", "rust", "brick"], "red"),
    (fun d => matchAny d ["green", "olive", "emerald"], "green"),
    (fun d => matchAny d ["gray", "grey", "silver"], "gray"),
    (fun d => matchAny d ["brown", "tan", "beige", "chocolate"], "brown"),
    (fun d => matchAny d ["yellow", "golden", "amber"], "yellow"),
    (fun d => matchAny d ["blue", "azure"], "blue") ]

/-- Hardness rules, in declaration order (source lines 97–99); the regexes
`difficult.*(scratch|break)` and `easy.*(scratch|break)` are modelled by
`dotStarAny`. -/
def hardnessRules : List ExtractRule :=
  [ (fun d => containsStr d "hard" || dotStarAny d "difficult" ["scratch", "break"] ||
        containsStr d "tough" || containsStr d "solid", "hard"),
    (fun d => containsStr d "soft" || dotStarAny d "easy" ["scratch", "break"] ||
        containsStr d "crumbl" || containsStr d "chalk", "soft"),
    (fun d => matchAny d ["medium", "moderate"], "medium") ]

/-- Luster rules, in declaration order (source lines 102–105). -/
def lusterRules : List ExtractRule :=
  [ (fun d => matchAny d ["shiny", "metallic", "mirror", "reflective"], "metallic"),
    (fun d => matchAny d ["dull", "earthy", "matte", "chalky"], "dull"),
    (fun d => matchAny d ["glassy", "vitreous", "glass"], "vitreous"),
    (fun d => matchAny d ["pearly", "silk"], "pearly") ]

/-- Crystal-size rules, in declaration order (source lines 108–110). -/
def crystalSizeRules : List ExtractRule :=
  [ (fun d => dotStarAny d "large" ["crystal", "grain"] || containsStr d "coarse", "large"),
    (fun d => dotStarAny d "small" ["crystal", "grain"] || containsStr d "fine", "small"),
    (fun d => dotStarAny d "no" ["crystal"] || containsStr d "glass", "none") ]

/-- `parseCharacteristics` (source lines 60–120).  A JavaScript-falsy
description (absent or `""`) skips text analysis entirely, leaving every
dimension `"unknown"` and the keyword list empty; `imageAnalysis.colors`
is stored as `dominantColors` but otherwise unused. -/
def parseCharacteristics (description : String) (imageColors : Option (List String)) :
    Characteristics :=
  let base : Characteristics :=
    { texture := "unknown", color := "unknown", hardness := "unknown",
      luster := "unknown", crystalSize := "unknown", keywords := [],
      dominantColors := none }
  let c :=
    if description = "" then base
    else
      let desc := lowerStr description
      { base with
        keywords := jsSplitWS desc,
        texture := applyRules textureRules desc,
        color := applyRules colorRules desc,
        hardness := applyRules hardnessRules desc,
        luster := applyRules lusterRules desc,
        crystalSize := applyRules crystalSizeRules desc }
  match imageColors with
  | some cols => { c with dominantColors := some cols }
  | none => c

/-- The classifier's output record (source `createRockData`, lines 237–246).
`type` is one of the strings `"igneous"`, `"metamorphic"`, `"sedimentary"`. -/
structure RockData where
  name : String
  type : String
  confidence : Nat
  formation : String
  subtype : String
  textureType : String
deriving DecidableEq

/-- `createRockData` (source lines 237–246). -/
def createRockData (name type : String) (confidence : Nat)
    (formation subtype textureType : String) : RockData :=
  { name := name, type := type, confidence := confidence,
    formation := formation, subtype := subtype, textureType := textureType }

/-- `keywords.join(' ')` as computed at the top of `classifyRock`
(source line 127). -/
def keywordString (c : Characteristics) : String :=
  joinSpace c.keywords

/-- `classifyRock` (source lines 122–235): an ordered decision list.
The first nine branches are the Tier-1 direct rock-name mentions tested
against the joined keyword string; then come the characteristic-pattern
branches (Tier 2), the broad color/hardness fallbacks (Tier 3) and the final
Granite fallback (Tier 4).  The coarse/large-crystal branch of the source has
no trailing `else`, so a coarse rock whose color is neither light/gray nor
dark falls through to the later branches; this is modelled by the two
conjunction-guarded branches below. -/
def classifyRock (c : Characteristics) : RockData :=
  if matchAny (keywordString c) ["granite"] then
    createRockData "Granite" "igneous" 88 "Formed from slow cooling of felsic magma deep within the Earth's crust" "plutonic" "phaneritic"
  else if matchAny (keywordString c) ["basalt"] then
    createRockData "Basalt" "igneous" 85 "Formed from rapid cooling of mafic lava flows on the Earth's surface" "volcanic" "aphanitic"
  else if matchAny (keywordString c) ["limestone", "lime"] then
    createRockData "Limestone" "sedimentary" 82 "Formed from accumulation of marine organisms and chemical precipitation in warm, shallow seas" "chemical" "crystalline"
  else if matchAny (keywordString c) ["sandstone", "sand"] then
    createRockData "Sandstone" "sedimentary" 80 "Formed from cementation of sand-sized mineral particles, primarily quartz" "clastic" "medium-grained"
  else if matchAny (keywordString c) ["marble"] then
    createRockData "Marble" "metamorphic" 85 "Formed from metamorphism of limestone or dolomite under heat and pressure" "non-foliated" "crystalline"
  else if matchAny (keywordString c) ["slate"] then
    createRockData "Slate" "metamorphic" 83 "Formed from low-grade metamorphism of shale or mudstone" "foliated" "fine-grained"
  else if matchAny (keywordString c) ["quartzite", "quartz"] then
    createRockData "Quartzite" "metamorphic" 81 "Formed from metamorphism of sandstone under high pressure and temperature" "non-foliated" "granoblastic"
  else if matchAny (keywordString c) ["obsidian"] then
    createRockData "Obsidian" "igneous" 90 "Formed from rapid cooling of volcanic glass, preventing crystal formation" "volcanic" "glassy"
  else if matchAny (keywordString c) ["pumice"] then
    createRockData "Pumice" "igneous" 87 "Formed from gas-filled volcanic eruptions that create a frothy, lightweight rock" "volcanic" "vesicular"
  else if c.texture = "glassy" then
    createRockData "Obsidian" "igneous" 85 "Formed from rapid cooling of volcanic glass, preventing crystal formation" "volcanic" "glassy"
  else if c.texture = "vesicular" ∨ c.texture = "porous" then
    (if c.color = "light" then
      createRockData "Pumice" "igneous" 80 "Formed from gas-filled volcanic eruptions that create a frothy, lightweight rock" "volcanic" "vesicular"
    else
      createRockData "Scoria" "igneous" 75 "Formed from basaltic or andesitic magma during Strombolian eruptions" "volcanic" "vesicular")
  else if (c.texture = "coarse" ∨ c.crystalSize = "large") ∧ (c.color = "light" ∨ c.color = "gray") then
    createRockData "Granite" "igneous" 82 "Formed from slow cooling of felsic magma deep within the Earth's crust" "plutonic" "phaneritic"
  else if (c.texture = "coarse" ∨ c.crystalSize = "large") ∧ c.color = "dark" then
    createRockData "Gabbro" "igneous" 78 "Formed from slow cooling of mafic magma deep within the Earth's crust" "plutonic" "phaneritic"
  else if c.texture = "fine" ∧ (c.color = "dark" ∨ c.color = "black") then
    createRockData "Basalt" "igneous" 78 "Formed from rapid cooling of mafic lava flows on the Earth's surface" "volcanic" "aphanitic"
  else if c.texture = "layered" ∨ matchAny (keywordString c) ["layer", "bed", "strat"] then
    (if c.hardness = "soft" ∨ matchAny (keywordString c) ["clay", "mud"] then
      createRockData "Shale" "sedimentary" 75 "Formed from compaction of clay and silt particles in quiet water environments" "clastic" "fine-grained"
    else
      createRockData "Sandstone" "sedimentary" 72 "Formed from cementation of sand-sized mineral particles, primarily quartz" "clastic" "medium-grained")
  else if c.hardness = "soft" ∧ (c.color = "light" ∨ c.color = "white") then
    createRockData "Limestone" "sedimentary" 75 "Formed from accumulation of marine organisms and chemical precipitation in warm, shallow seas" "chemical" "crystalline"
  else if matchAny (keywordString c) ["sand", "grain"] ∨ c.texture = "coarse" then
    createRockData "Sandstone" "sedimentary" 72 "Formed from cementation of sand-sized mineral particles, primarily quartz" "clastic" "medium-grained"
  else if c.texture = "foliated" ∨ matchAny (keywordString c) ["flaky", "sheet", "split"] then
    (if c.hardness = "soft" then
      createRockData "Slate" "metamorphic" 70 "Formed from low-grade metamorphism of shale or mudstone" "foliated" "fine-grained"
    else
      createRockData "Schist" "metamorphic" 68 "Formed from medium-grade metamorphism of shale or other fine-grained rocks" "foliated" "schistose")
  else if c.texture = "crystalline" ∨ c.luster = "vitreous" then
    (if c.color = "light" ∨ c.color = "white" then
      createRockData "Marble" "metamorphic" 76 "Formed from metamorphism of limestone or dolomite under heat and pressure" "non-foliated" "crystalline"
    else
      createRockData "Quartzite" "metamorphic" 74 "Formed from metamorphism of sandstone under high pressure and temperature" "non-foliated" "granoblastic")
  else if c.color = "dark" ∨ c.color = "black" then
    createRockData "Basalt" "igneous" 65 "Formed from rapid cooling of mafic lava flows on the Earth's surface" "volcanic" "aphanitic"
  else if c.color = "light" ∨ c.color = "gray" then
    createRockData "Granite" "igneous" 65 "Formed from slow cooling of felsic magma deep within the Earth's crust" "plutonic" "phaneritic"
  else if c.hardness = "soft" then
    createRockData "Limestone" "sedimentary" 60 "Formed from accumulation of marine organisms and chemical precipitation in warm, shallow seas" "chemical" "crystalline"
  else
    createRockData "Granite" "igneous" 55 "Common igneous rock formed from cooling magma - identification needs more specific details" "plutonic" "phaneritic"

/-- The Tier-1 prefix of `classifyRock` in isolation: the result of the first
of the nine direct-keyword branches whose pattern matches the joined keyword
string, or `none` when none matches (source lines 130–156). -/
def tier1Result (ks : String) : Option RockData :=
  if matchAny ks ["granite"] then
    some (createRockData "Granite" "igneous" 88 "Formed from slow cooling of felsic magma deep within the Earth's crust" "plutonic" "phaneritic")
  else if matchAny ks ["basalt"] then
    some (createRockData "Basalt" "igneous" 85 "Formed from rapid cooling of mafic lava flows on the Earth's surface" "volcanic" "aphanitic")
  else if matchAny ks ["limestone", "lime"] then
    some (createRockData "Limestone" "sedimentary" 82 "Formed from accumulation of marine organisms and chemical precipitation in warm, shallow seas" "chemical" "crystalline")
  else if matchAny ks ["sandstone", "sand"] then
    some (createRockData "Sandstone" "sedimentary" 80 "Formed from cementation of sand-sized mineral particles, primarily quartz" "clastic" "medium-grained")
  else if matchAny ks ["marble"] then
    some (createRockData "Marble" "metamorphic" 85 "Formed from metamorphism of limestone or dolomite under heat and pressure" "non-foliated" "crystalline")
  else if matchAny ks ["slate"] then
    some (createRockData "Slate" "metamorphic" 83 "Formed from low-grade metamorphism of shale or mudstone" "foliated" "fine-grained")
  else if matchAny ks ["quartzite", "quartz"] then
    some (createRockData "Quartzite" "metamorphic" 81 "Formed from metamorphism of sandstone under high pressure and temperature" "non-foliated" "granoblastic")
  else if matchAny ks ["obsidian"] then
    some (createRockData "Obsidian" "igneous" 90 "Formed from rapid cooling of volcanic glass, preventing crystal formation" "volcanic" "glassy")
  else if matchAny ks ["pumice"] then
    some (createRockData "Pumice" "igneous" 87 "Formed from gas-filled volcanic eruptions that create a frothy, lightweight rock" "volcanic" "vesicular")
  else none

/-- The (lowercased) rock names that have a Tier-1 direct-mention branch. -/
def tier1Names : List String :=
  ["granite", "basalt", "limestone", "sandstone", "marble", "slate",
   "quartzite", "obsidian", "pumice"]

/-- The full catalog of rock names producible by `classifyRock`. -/
def catalogNames : List String :=
  ["Granite", "Basalt", "Limestone", "Sandstone", "Marble", "Slate",
   "Quartzite", "Obsidian", "Pumice", "Scoria", "Gabbro", "Shale", "Schist"]

/-- The fixed rock type paired with each catalog name in every branch of
`classifyRock`. -/
def rockTypeOf : String → String
  | "Granite" => "igneous"
  | "Basalt" => "igneous"
  | "Obsidian" => "igneous"
  | "Pumice" => "igneous"
  | "Scoria" => "igneous"
  | "Gabbro" => "igneous"
  | "Limestone" => "sedimentary"
  | "Sandstone" => "sedimentary"
  | "Shale" => "sedimentary"
  | "Marble" => "metamorphic"
  | "Slate" => "metamorphic"
  | "Quartzite" => "metamorphic"
  | "Schist" => "metamorphic"
  | _ => ""

/-- The records returned by the nine Tier-1 branches, in branch order. -/
def tier1Branches : List RockData :=
  [ createRockData "Granite" "igneous" 88 "Formed from slow cooling of felsic magma deep within the Earth's crust" "plutonic" "phaneritic",
    createRockData "Basalt" "igneous" 85 "Formed from rapid cooling of mafic lava flows on the Earth's surface" "volcanic" "aphanitic",
    createRockData "Limestone" "sedimentary" 82 "Formed from accumulation of marine organisms and chemical precipitation in warm, shallow seas" "chemical" "crystalline",
    createRockData "Sandstone" "sedimentary" 80 "Formed from cementation of sand-sized mineral particles, primarily quartz" "clastic" "medium-grained",
    createRockData "Marble" "metamorphic" 85 "Formed from metamorphism of limestone or dolomite under heat and pressure" "non-foliated" "crystalline",
    createRockData "Slate" "metamorphic" 83 "Formed from low-grade metamorphism of shale or mudstone" "foliated" "fine-grained",
    createRockData "Quartzite" "metamorphic" 81 "Formed from metamorphism of sandstone under high pressure and temperature" "non-foliated" "granoblastic",
    createRockData "Obsidian" "igneous" 90 "Formed from rapid cooling of volcanic glass, preventing crystal formation" "volcanic" "glassy",
    createRockData "Pumice" "igneous" 87 "Formed from gas-filled volcanic eruptions that create a frothy, lightweight rock" "volcanic" "vesicular" ]

/-- The records returned by the Tier-2 (characteristic-pattern) branches,
in branch order (the Sandstone record occurs twice in the source). -/
def tier2Branches : List RockData :=
  [ createRockData "Obsidian" "igneous" 85 "Formed from rapid cooling of volcanic glass, preventing crystal formation" "volcanic" "glassy",
    createRockData "Pumice" "igneous" 80 "Formed from gas-filled volcanic eruptions that create a frothy, lightweight rock" "volcanic" "vesicular",
    createRockData "Scoria" "igneous" 75 "Formed from basaltic or andesitic magma during Strombolian eruptions" "volcanic" "vesicular",
    createRockData "Granite" "igneous" 82 "Formed from slow cooling of felsic magma deep within the Earth's crust" "plutonic" "phaneritic",
    createRockData "Gabbro" "igneous" 78 "Formed from slow cooling of mafic magma deep within the Earth's crust" "plutonic" "phaneritic",
    createRockData "Basalt" "igneous" 78 "Formed from rapid cooling of mafic lava flows on the Earth's surface" "volcanic" "aphanitic",
    createRockData "Shale" "sedimentary" 75 "Formed from compaction of clay and silt particles in quiet water environments" "clastic" "fine-grained",
    createRockData "Sandstone" "sedimentary" 72 "Formed from cementation of sand-sized mineral particles, primarily quartz" "clastic" "medium-grained",
    createRockData "Limestone" "sedimentary" 75 "Formed from accumulation of marine organisms and chemical precipitation in warm, shallow seas" "chemical" "crystalline",
    createRockData "Sandstone" "sedimentary" 72 "Formed from cementation of sand-sized mineral particles, primarily quartz" "clastic" "medium-grained",
    createRockData "Slate" "metamorphic" 70 "Formed from low-grade metamorphism of shale or mudstone" "foliated" "fine-grained",
    createRockData "Schist" "metamorphic" 68 "Formed from medium-grade metamorphism of shale or other fine-grained rocks" "foliated" "schistose",
    createRockData "Marble" "metamorphic" 76 "Formed from metamorphism of limestone or dolomite under heat and pressure" "non-foliated" "crystalline",
    createRockData "Quartzite" "metamorphic" 74 "Formed from metamorphism of sandstone under high pressure and temperature" "non-foliated" "granoblastic" ]

/-- The records returned by the Tier-3 broad color/hardness fallbacks. -/
def tier3Branches : List RockData :=
  [ createRockData "Basalt" "igneous" 65 "Formed from rapid cooling of mafic lava flows on the Earth's surface" "volcanic" "aphanitic",
    createRockData "Granite" "igneous" 65 "Formed from slow cooling of felsic magma deep within the Earth's crust" "plutonic" "phaneritic",
    createRockData "Limestone" "sedimentary" 60 "Formed from accumulation of marine organisms and chemical precipitation in warm, shallow seas" "chemical" "crystalline" ]

/-- The Tier-4 final fallback record. -/
def tier4Branch : RockData :=
  createRockData "Granite" "igneous" 55 "Common igneous rock formed from cooling magma - identification needs more specific details" "plutonic" "phaneritic"

/-- Every record any branch of `classifyRock` can return. -/
def allBranchResults : List RockData :=
  tier1Branches ++ tier2Branches ++ tier3Branches ++ [tier4Branch]

/-- Specification-side reading of the extractor: the label of the LAST rule
in declaration order whose pattern matches the text, `"unknown"` when no
rule matches. -/
def lastMatch (rules : List ExtractRule) (d : String) : String :=
  match (rules.filter (fun r => r.1 d)).getLast? with
  | some r => r.2
  | none => "unknown"

/-- Classification taxonomy record (`getClassification`'s values). -/
structure Classification where
  group : String
  family : Option String
  series : Option String
deriving DecidableEq

/-- The static default-location table (source `getDefaultLocations`,
lines 304–312), keyed by rock type. -/
def locationMap : List (String × List String) :=
  [ ("igneous", ["Volcanic regions", "Mountain ranges", "Oceanic islands", "Continental margins"]),
    ("sedimentary", ["River valleys", "Ocean floors", "Desert basins", "Coastal plains"]),
    ("metamorphic", ["Mountain cores", "Continental shields", "Collision zones", "Deep crustal regions"]) ]

/-- `getDefaultLocations` (source lines 304–312): `locationMap[rockType] ||
['Worldwide distribution']`. -/
def getDefaultLocations (rockType : String) : List String :=
  match locationMap.lookup rockType with
  | some ls => ls
  | none => ["Worldwide distribution"]

/-- The static composition table (source `getComposition`, lines 314–329). -/
def compositionMap : List (String × List String) :=
  [ ("Granite", ["Quartz (25-35%)", "Feldspar (50-60%)", "Mica (5-15%)", "Hornblende"]),
    ("Basalt", ["Plagioclase feldspar", "Pyroxene", "Olivine", "Magnetite"]),
    ("Limestone", ["Calcite (CaCOâ‚ƒ)", "Aragonite", "Dolomite", "Fossil fragments"]),
    ("Sandstone", ["Quartz (dominant)", "Feldspar", "Rock fragments", "Clay minerals"]),
    ("Shale", ["Clay minerals", "Quartz", "Feldspar", "Organic matter"]),
    ("Schist", ["Mica", "Quartz", "Feldspar", "Garnet", "Staurolite"]),
    ("Quartzite", ["Quartz (>95%)", "Minor feldspar", "Mica traces"]),
    ("Obsidian", ["Volcanic glass", "Silica (70-75%)", "Minimal crystals"]),
    ("Pumice", ["Volcanic glass", "Silica", "Gas bubbles (vesicles)"]),
    ("Scoria", ["Basaltic glass", "Pyroxene", "Plagioclase", "Olivine"]) ]

/-- `getComposition` (source lines 314–329). -/
def getComposition (rockName : String) : List String :=
  match compositionMap.lookup rockName with
  | some cs => cs
  | none => ["Mineral composition varies"]

/-- The static uses table (source `getUses`, lines 331–346). -/
def usesMap : List (String × List String) :=
  [ ("Granite", ["Construction material", "Countertops", "Monuments", "Road aggregate"]),
    ("Basalt", ["Road construction", "Railroad ballast", "Concrete aggregate", "Stone tools"]),
    ("Limestone", ["Cement production", "Building stone", "Agricultural lime", "Steel production"]),
    ("Sandstone", ["Building stone", "Paving material", "Glass manufacturing", "Filtration"]),
    ("Shale", ["Brick manufacturing", "Ceramic production", "Oil and gas extraction"]),
    ("Schist", ["Roofing material", "Decorative stone", "Road construction"]),
    ("Quartzite", ["Construction aggregate", "Railroad ballast", "Roofing granules"]),
    ("Obsidian", ["Surgical instruments", "Decorative objects", "Archaeological tools"]),
    ("Pumice", ["Abrasive material", "Concrete aggregate", "Horticulture", "Personal care"]),
    ("Scoria", ["Landscaping", "Construction aggregate", "Drainage material"]) ]

/-- `getUses` (source lines 331–346). -/
def getUses (rockName : String) : List String :=
  match usesMap.lookup rockName with
  | some us => us
  | none => ["Various industrial and construction applications"]

/-- The static classification table (source `getClassification`,
lines 348–360). -/
def classificationMap : List (String × Classification) :=
  [ ("Granite", { group := "Felsic Intrusive", family := some "Granitoid", series := some "Alkali Feldspar" }),
    ("Basalt", { group := "Mafic Extrusive", family := some "Basaltic", series := some "Tholeiitic" }),
    ("Limestone", { group := "Carbonate", family := some "Calcitic", series := none }),
    ("Sandstone", { group := "Clastic", family := some "Arenaceous", series := none }),
    ("Shale", { group := "Clastic", family := some "Argillaceous", series := none }),
    ("Schist", { group := "Foliated", family := some "Regional Metamorphic", series := none }),
    ("Quartzite", { group := "Non-foliated", family := some "Contact Metamorphic", series := none }) ]

/-- `getClassification` (source lines 348–360); the fallback group is the
template string `rockType + " rock"`. -/
def getClassification (rockName rockType : String) : Classification :=
  match classificationMap.lookup rockName with
  | some cl => cl
  | none => { group := rockType ++ " rock", family := none, series := none }

/-- The static fun-facts table (source `getDefaultFunFacts`, lines 362–382). -/
def funFactsMap : List (String × List String) :=
  [ ("Granite",
     [ "Granite makes up about 70-80% of the Earth's continental crust",
       "The word \"granite\" comes from the Latin \"granum\" meaning grain",
       "Some granite formations are over 3 billion years old" ]),
    ("Basalt",
     [ "Basalt covers about 70% of the Earth's surface, mostly on ocean floors",
       "The dark side of the Moon is primarily basaltic rock",
       "Basalt can form hexagonal columns when cooling slowly" ]),
    ("Limestone",
     [ "The Great Pyramid of Giza is built primarily from limestone blocks",
       "Limestone can contain fossils of ancient marine life",
       "Acid rain can dissolve limestone, forming caves and sinkholes" ]) ]

/-- `getDefaultFunFacts` (source lines 362–382); the fallback is a one-line
templated string containing the rock name. -/
def getDefaultFunFacts (rockName : String) : List String :=
  match funFactsMap.lookup rockName with
  | some fs => fs
  | none => [rockName ++ " has unique geological properties that make it scientifically interesting."]

/-- Outcome of the single external Wikipedia summary call made by
`fetchWikipediaData` (source lines 278–296).  `ok extract thumbnail` is a
2xx response whose parsed body has the given `extract` (with `none` standing
for a JavaScript-falsy extract: absent, `null` or `""`) and optional
`thumbnail.source`; `notOkOrError` is a non-2xx response or a network/parse
error caught by the function's own `try`/`catch`. -/
inductive WikiOutcome where
  | ok (extract : Option String) (thumbnail : Option String)
  | notOkOrError
deriving DecidableEq

/-- The value `fetchWikipediaData` resolves with. -/
structure WikiData where
  funFacts : List String
  image : Option String
deriving DecidableEq

/-- `fetchWikipediaData` (source lines 278–296).  On success the fun facts
are the one-element list holding the extract (or the templated sentence when
the extract is falsy); on failure the function returns
`{ funFacts: [], image: null }` — it never throws. -/
def fetchWikipediaData (rockName : String) : WikiOutcome → WikiData
  | WikiOutcome.ok extract thumbnail =>
    { funFacts := [extract.getD (rockName ++ " is a type of rock with unique geological properties.")],
      image := thumbnail }
  | WikiOutcome.notOkOrError => { funFacts := [], image := none }

/-- The value `fetchLocationData` resolves with. -/
structure LocationData where
  locations : List String
deriving DecidableEq

/-- `fetchLocationData` (source lines 298–302) is a stub: it always resolves
with `{ locations: [] }` and never throws. -/
def fetchLocationData (_rockName : String) : LocationData :=
  { locations := [] }

/-- JavaScript `a || b` where `a` is an array value: every array — including
the empty array — is truthy, so the expression always evaluates to `a`. -/
def jsOrArray (a _b : List String) : List String := a

/-- The enriched identification returned to the caller (source lines
256–264). -/
structure EnrichedRock where
  name : String
  type : String
  confidence : Nat
  formation : String
  subtype : String
  textureType : String
  locations : List String
  composition : List String
  uses : List String
  classification : Classification
  funFacts : List String
  image : Option String
deriving DecidableEq

/-- `enhanceRockData` (source lines 248–276), try path.  Neither
`fetchWikipediaData` (which catches its own errors) nor the stub
`fetchLocationData` can reject, so the `catch` branch of the source is
unreachable and the try path is the whole behaviour.  `wiki` is the outcome
of the single external summary call. -/
def enhanceRockData (basicData : RockData) (wiki : WikiOutcome) : EnrichedRock :=
  let wikipediaData := fetchWikipediaData basicData.name wiki
  let locationData := fetchLocationData basicData.name
  { name := basicData.name, type := basicData.type,
    confidence := basicData.confidence, formation := basicData.formation,
    subtype := basicData.subtype, textureType := basicData.textureType,
    locations := jsOrArray locationData.locations (getDefaultLocations basicData.type),
    composition := getComposition basicData.name,
    uses := getUses basicData.name,
    classification := getClassification basicData.name basicData.type,
    funFacts := jsOrArray wikipediaData.funFacts (getDefaultFunFacts basicData.name),
    image := wikipediaData.image }

/-!
The theorems.  `foldl_update_eq_lastMatch` through `classify_mem_branches`
are shared helper lemmas about the embedded definitions; the `cN_…` theorems
settle the individual claims.
-/

theorem foldl_update_eq_lastMatch (d : String) (rules : List ExtractRule) (init : String) :
    rules.foldl (fun acc r => if r.1 d then r.2 else acc) init =
      (match (rules.filter (fun r => r.1 d)).getLast? with
       | some r => r.2
       | none => init) := by
  induction rules generalizing init with
  | nil => rfl
  | cons r rs ih =>
    rw [List.foldl_cons, ih, List.filter_cons]
    cases hr : r.1 d with
    | false => simp
    | true =>
      simp only [if_pos]
      cases hf : (rs.filter (fun r => r.1 d)).getLast? with
      | none =>
        have hnil : rs.filter (fun r => r.1 d) = [] := by
          cases h : rs.filter (fun r => r.1 d) with
          | nil => rfl
          | cons x xs => rw [h] at hf; simp [List.getLast?] at hf
        simp [hnil]
      | some x =>
        have hne : rs.filter (fun r => r.1 d) ≠ [] := by
          intro h; rw [h] at hf; simp at hf
        cases h : rs.filter (fun r => r.1 d) with
        | nil => exact absurd h hne
        | cons y ys =>
          rw [h] at hf
          rw [List.getLast?_cons_cons, hf]

theorem applyRules_eq_lastMatch (rules : List ExtractRule) (d : String) :
    applyRules rules d = lastMatch rules d :=
  foldl_update_eq_lastMatch d rules "unknown"

theorem leads_append (p : List Char) : ∀ (xs ys : List Char), leads p xs = true → leads p (xs ++ ys) = true := by
  induction p with
  | nil => intro xs ys _; simp [leads]
  | cons a ps ih =>
    intro xs ys h
    cases xs with
    | nil => simp [leads] at h
    | cons x xt =>
      simp only [leads, Bool.and_eq_true] at h
      simp only [List.cons_append, leads, Bool.and_eq_true]
      exact ⟨h.1, ih xt ys h.2⟩

theorem leads_self_append (p t : List Char) : leads p (p ++ t) = true := by
  induction p with
  | nil => simp [leads]
  | cons a ps ih => simp [leads, ih]

theorem occursIn_nil_pat (l : List Char) : occursIn [] l = true := by
  cases l <;> simp [occursIn, leads]

theorem occursIn_append_left (pat : List Char) : ∀ (xs ys : List Char), occursIn pat xs = true → occursIn pat (xs ++ ys) = true := by
  intro xs
  induction xs with
  | nil =>
    intro ys h
    simp only [occursIn, List.isEmpty_iff] at h
    subst h
    simpa using occursIn_nil_pat ys
  | cons x xt ih =>
    intro ys h
    simp only [occursIn, Bool.or_eq_true] at h
    simp only [List.cons_append, occursIn, Bool.or_eq_true]
    rcases h with h | h
    · exact Or.inl (leads_append pat (x :: xt) ys h)
    · exact Or.inr (ih ys h)

theorem occursIn_append_right (pat : List Char) : ∀ (xs ys : List Char), occursIn pat ys = true → occursIn pat (xs ++ ys) = true := by
  intro xs
  induction xs with
  | nil => intro ys h; simpa using h
  | cons x xt ih =>
    intro ys h
    simp only [List.cons_append, occursIn, Bool.or_eq_true]
    exact Or.inr (ih ys h)

theorem occursIn_self_append (p t : List Char) : occursIn p (p ++ t) = true := by
  cases p with
  | nil => simpa using occursIn_nil_pat t
  | cons a ps =>
    simp only [List.cons_append, occursIn, Bool.or_eq_true]
    exact Or.inl (by simpa using leads_self_append (a :: ps) t)

theorem strData_append (a b : String) : (a ++ b).data = a.data ++ b.data := rfl

theorem contains_joinSpace (n : String) : ∀ (l : List String), n ∈ l → containsStr (joinSpace l) n = true := by
  intro l
  induction l with
  | nil => intro h; cases h
  | cons s rest ih =>
    intro h
    cases rest with
    | nil =>
      have hn : n = s := by simpa using h
      subst hn
      show occursIn n.data (joinSpace [n]).data = true
      have : joinSpace [n] = n := rfl
      rw [this]
      simpa using occursIn_self_append n.data []
    | cons r rs =>
      have hjoin : joinSpace (s :: r :: rs) = s ++ " " ++ joinSpace (r :: rs) := rfl
      rcases List.mem_cons.mp h with hn | hn
      · subst hn
        show occursIn n.data (joinSpace (n :: r :: rs)).data = true
        rw [hjoin, strData_append, strData_append, List.append_assoc]
        exact occursIn_self_append n.data (" ".data ++ (joinSpace (r :: rs)).data)
      · have hrec := ih hn
        show occursIn n.data (joinSpace (s :: r :: rs)).data = true
        rw [hjoin, strData_append, strData_append, List.append_assoc]
        exact occursIn_append_right n.data s.data (" ".data ++ (joinSpace (r :: rs)).data)
          (occursIn_append_right n.data " ".data (joinSpace (r :: rs)).data hrec)

theorem classify_of_tier1 (c : Characteristics) (r : RockData)
    (h : tier1Result (keywordString c) = some r) : classifyRock c = r := by
  unfold tier1Result at h
  unfold classifyRock
  by_cases h1 : matchAny (keywordString c) ["granite"] = true
  · rw [if_pos h1] at h ⊢; exact Option.some.inj h
  rw [if_neg h1] at h ⊢
  by_cases h2 : matchAny (keywordString c) ["basalt"] = true
  · rw [if_pos h2] at h ⊢; exact Option.some.inj h
  rw [if_neg h2] at h ⊢
  by_cases h3 : matchAny (keywordString c) ["limestone", "lime"] = true
  · rw [if_pos h3] at h ⊢; exact Option.some.inj h
  rw [if_neg h3] at h ⊢
  by_cases h4 : matchAny (keywordString c) ["sandstone", "sand"] = true
  · rw [if_pos h4] at h ⊢; exact Option.some.inj h
  rw [if_neg h4] at h ⊢
  by_cases h5 : matchAny (keywordString c) ["marble"] = true
  · rw [if_pos h5] at h ⊢; exact Option.some.inj h
  rw [if_neg h5] at h ⊢
  by_cases h6 : matchAny (keywordString c) ["slate"] = true
  · rw [if_pos h6] at h ⊢; exact Option.some.inj h
  rw [if_neg h6] at h ⊢
  by_cases h7 : matchAny (keywordString c) ["quartzite", "quartz"] = true
  · rw [if_pos h7] at h ⊢; exact Option.some.inj h
  rw [if_neg h7] at h ⊢
  by_cases h8 : matchAny (keywordString c) ["obsidian"] = true
  · rw [if_pos h8] at h ⊢; exact Option.some.inj h
  rw [if_neg h8] at h ⊢
  by_cases h9 : matchAny (keywordString c) ["pumice"] = true
  · rw [if_pos h9] at h ⊢; exact Option.some.inj h
  rw [if_neg h9] at h
  exact absurd h (by simp)

theorem tier1_none_all_false (ks : String) (h : tier1Result ks = none) :
    matchAny ks ["granite"] = false ∧ matchAny ks ["basalt"] = false ∧
    matchAny ks ["limestone", "lime"] = false ∧ matchAny ks ["sandstone", "sand"] = false ∧
    matchAny ks ["marble"] = false ∧ matchAny ks ["slate"] = false ∧
    matchAny ks ["quartzite", "quartz"] = false ∧ matchAny ks ["obsidian"] = false ∧
    matchAny ks ["pumice"] = false := by
  unfold tier1Result at h
  by_cases h1 : matchAny ks ["granite"] = true
  · rw [if_pos h1] at h; simp at h
  rw [if_neg h1] at h
  by_cases h2 : matchAny ks ["basalt"] = true
  · rw [if_pos h2] at h; simp at h
  rw [if_neg h2] at h
  by_cases h3 : matchAny ks ["limestone", "lime"] = true
  · rw [if_pos h3] at h; simp at h
  rw [if_neg h3] at h
  by_cases h4 : matchAny ks ["sandstone", "sand"] = true
  · rw [if_pos h4] at h; simp at h
  rw [if_neg h4] at h
  by_cases h5 : matchAny ks ["marble"] = true
  · rw [if_pos h5] at h; simp at h
  rw [if_neg h5] at h
  by_cases h6 : matchAny ks ["slate"] = true
  · rw [if_pos h6] at h; simp at h
  rw [if_neg h6] at h
  by_cases h7 : matchAny ks ["quartzite", "quartz"] = true
  · rw [if_pos h7] at h; simp at h
  rw [if_neg h7] at h
  by_cases h8 : matchAny ks ["obsidian"] = true
  · rw [if_pos h8] at h; simp at h
  rw [if_neg h8] at h
  by_cases h9 : matchAny ks ["pumice"] = true
  · rw [if_pos h9] at h; simp at h
  exact ⟨by simpa using h1, by simpa using h2, by simpa using h3, by simpa using h4,
    by simpa using h5, by simpa using h6, by simpa using h7, by simpa using h8,
    by simpa using h9⟩

theorem tier1Fires_isSome (ks : String)
    (hf : (matchAny ks ["granite"] || matchAny ks ["basalt"] || matchAny ks ["limestone", "lime"] ||
      matchAny ks ["sandstone", "sand"] || matchAny ks ["marble"] || matchAny ks ["slate"] ||
      matchAny ks ["quartzite", "quartz"] || matchAny ks ["obsidian"] || matchAny ks ["pumice"]) = true) :
    ∃ r, tier1Result ks = some r := by
  unfold tier1Result
  by_cases h1 : matchAny ks ["granite"] = true
  · exact ⟨_, if_pos h1⟩
  rw [if_neg h1]
  by_cases h2 : matchAny ks ["basalt"] = true
  · exact ⟨_, if_pos h2⟩
  rw [if_neg h2]
  by_cases h3 : matchAny ks ["limestone", "lime"] = true
  · exact ⟨_, if_pos h3⟩
  rw [if_neg h3]
  by_cases h4 : matchAny ks ["sandstone", "sand"] = true
  · exact ⟨_, if_pos h4⟩
  rw [if_neg h4]
  by_cases h5 : matchAny ks ["marble"] = true
  · exact ⟨_, if_pos h5⟩
  rw [if_neg h5]
  by_cases h6 : matchAny ks ["slate"] = true
  · exact ⟨_, if_pos h6⟩
  rw [if_neg h6]
  by_cases h7 : matchAny ks ["quartzite", "quartz"] = true
  · exact ⟨_, if_pos h7⟩
  rw [if_neg h7]
  by_cases h8 : matchAny ks ["obsidian"] = true
  · exact ⟨_, if_pos h8⟩
  rw [if_neg h8]
  by_cases h9 : matchAny ks ["pumice"] = true
  · exact ⟨_, if_pos h9⟩
  exfalso
  simp only [Bool.not_eq_true] at h1 h2 h3 h4 h5 h6 h7 h8 h9
  rw [h1, h2, h3, h4, h5, h6, h7, h8, h9] at hf
  simp at hf

theorem tier1_isSome_of_name (ks n : String) (hn : n ∈ tier1Names)
    (h : containsStr ks n = true) : ∃ r, tier1Result ks = some r := by
  apply tier1Fires_isSome
  fin_cases hn <;> simp_all [matchAny]

theorem tier1Result_conf (ks : String) (r : RockData) (h : tier1Result ks = some r) :
    r ∈ tier1Branches ∧ 80 ≤ r.confidence ∧ r.confidence ≤ 90 := by
  unfold tier1Result at h
  by_cases h1 : matchAny ks ["granite"] = true
  · rw [if_pos h1] at h; obtain rfl := Option.some.inj h; decide
  rw [if_neg h1] at h
  by_cases h2 : matchAny ks ["basalt"] = true
  · rw [if_pos h2] at h; obtain rfl := Option.some.inj h; decide
  rw [if_neg h2] at h
  by_cases h3 : matchAny ks ["limestone", "lime"] = true
  · rw [if_pos h3] at h; obtain rfl := Option.some.inj h; decide
  rw [if_neg h3] at h
  by_cases h4 : matchAny ks ["sandstone", "sand"] = true
  · rw [if_pos h4] at h; obtain rfl := Option.some.inj h; decide
  rw [if_neg h4] at h
  by_cases h5 : matchAny ks ["marble"] = true
  · rw [if_pos h5] at h; obtain rfl := Option.some.inj h; decide
  rw [if_neg h5] at h
  by_cases h6 : matchAny ks ["slate"] = true
  · rw [if_pos h6] at h; obtain rfl := Option.some.inj h; decide
  rw [if_neg h6] at h
  by_cases h7 : matchAny ks ["quartzite", "quartz"] = true
  · rw [if_pos h7] at h; obtain rfl := Option.some.inj h; decide
  rw [if_neg h7] at h
  by_cases h8 : matchAny ks ["obsidian"] = true
  · rw [if_pos h8] at h; obtain rfl := Option.some.inj h; decide
  rw [if_neg h8] at h
  by_cases h9 : matchAny ks ["pumice"] = true
  · rw [if_pos h9] at h; obtain rfl := Option.some.inj h; decide
  rw [if_neg h9] at h
  exact absurd h (by simp)

theorem classify_mem_branches (c : Characteristics) : classifyRock c ∈ allBranchResults := by
  unfold classifyRock
  by_cases h1 : matchAny (keywordString c) ["granite"] = true
  · rw [if_pos h1]; decide
  rw [if_neg h1]
  by_cases h2 : matchAny (keywordString c) ["basalt"] = true
  · rw [if_pos h2]; decide
  rw [if_neg h2]
  by_cases h3 : matchAny (keywordString c) ["limestone", "lime"] = true
  · rw [if_pos h3]; decide
  rw [if_neg h3]
  by_cases h4 : matchAny (keywordString c) ["sandstone", "sand"] = true
  · rw [if_pos h4]; decide
  rw [if_neg h4]
  by_cases h5 : matchAny (keywordString c) ["marble"] = true
  · rw [if_pos h5]; decide
  rw [if_neg h5]
  by_cases h6 : matchAny (keywordString c) ["slate"] = true
  · rw [if_pos h6]; decide
  rw [if_neg h6]
  by_cases h7 : matchAny (keywordString c) ["quartzite", "quartz"] = true
  · rw [if_pos h7]; decide
  rw [if_neg h7]
  by_cases h8 : matchAny (keywordString c) ["obsidian"] = true
  · rw [if_pos h8]; decide
  rw [if_neg h8]
  by_cases h9 : matchAny (keywordString c) ["pumice"] = true
  · rw [if_pos h9]; decide
  rw [if_neg h9]
  by_cases h10 : c.texture = "glassy"
  · rw [if_pos h10]; decide
  rw [if_neg h10]
  by_cases h11 : c.texture = "vesicular" ∨ c.texture = "porous"
  · rw [if_pos h11]; split <;> decide
  rw [if_neg h11]
  by_cases h12 : (c.texture = "coarse" ∨ c.crystalSize = "large") ∧ (c.color = "light" ∨ c.color = "gray")
  · rw [if_pos h12]; decide
  rw [if_neg h12]
  by_cases h13 : (c.texture = "coarse" ∨ c.crystalSize = "large") ∧ c.color = "dark"
  · rw [if_pos h13]; decide
  rw [if_neg h13]
  by_cases h14 : c.texture = "fine" ∧ (c.color = "dark" ∨ c.color = "black")
  · rw [if_pos h14]; decide
  rw [if_neg h14]
  by_cases h15 : c.texture = "layered" ∨ matchAny (keywordString c) ["layer", "bed", "strat"] = true
  · rw [if_pos h15]; split <;> decide
  rw [if_neg h15]
  by_cases h16 : c.hardness = "soft" ∧ (c.color = "light" ∨ c.color = "white")
  · rw [if_pos h16]; decide
  rw [if_neg h16]
  by_cases h17 : matchAny (keywordString c) ["sand", "grain"] = true ∨ c.texture = "coarse"
  · rw [if_pos h17]; decide
  rw [if_neg h17]
  by_cases h18 : c.texture = "foliated" ∨ matchAny (keywordString c) ["flaky", "sheet", "split"] = true
  · rw [if_pos h18]; split <;> decide
  rw [if_neg h18]
  by_cases h19 : c.texture = "crystalline" ∨ c.luster = "vitreous"
  · rw [if_pos h19]; split <;> decide
  rw [if_neg h19]
  by_cases h20 : c.color = "dark" ∨ c.color = "black"
  · rw [if_pos h20]; decide
  rw [if_neg h20]
  by_cases h21 : c.color = "light" ∨ c.color = "gray"
  · rw [if_pos h21]; decide
  rw [if_neg h21]
  by_cases h22 : c.hardness = "soft"
  · rw [if_pos h22]; decide
  rw [if_neg h22]
  decide

theorem getDefaultFunFacts_ne_nil (n : String) : getDefaultFunFacts n ≠ [] := by
  by_cases h1 : n = "Granite"
  · subst h1; decide
  by_cases h2 : n = "Basalt"
  · subst h2; decide
  by_cases h3 : n = "Limestone"
  · subst h3; decide
  have hl : funFactsMap.lookup n = none := by
    unfold funFactsMap
    simp [List.lookup, beq_eq_false_iff_ne.mpr h1, beq_eq_false_iff_ne.mpr h2,
      beq_eq_false_iff_ne.mpr h3]
  unfold getDefaultFunFacts
  rw [hl]
  simp

theorem getDefaultLocations_ne_nil (t : String) : getDefaultLocations t ≠ [] := by
  by_cases h1 : t = "igneous"
  · subst h1; decide
  by_cases h2 : t = "sedimentary"
  · subst h2; decide
  by_cases h3 : t = "metamorphic"
  · subst h3; decide
  have hl : locationMap.lookup t = none := by
    unfold locationMap
    simp [List.lookup, beq_eq_false_iff_ne.mpr h1, beq_eq_false_iff_ne.mpr h2,
      beq_eq_false_iff_ne.mpr h3]
  unfold getDefaultLocations
  rw [hl]
  simp

/-- Claim C5.  For every description and every characteristic dimension
(texture, color, hardness, luster, crystal size), the extractor sets the
dimension to the label of the last rule in declaration order whose pattern
matches the lowercased full text, and leaves it `"unknown"` when no rule
matches (`lastMatch` is exactly that reading). -/
theorem c5_last_match_wins (description : String) (imageColors : Option (List String)) :
    (parseCharacteristics description imageColors).texture = lastMatch textureRules (lowerStr description) ∧
    (parseCharacteristics description imageColors).color = lastMatch colorRules (lowerStr description) ∧
    (parseCharacteristics description imageColors).hardness = lastMatch hardnessRules (lowerStr description) ∧
    (parseCharacteristics description imageColors).luster = lastMatch lusterRules (lowerStr description) ∧
    (parseCharacteristics description imageColors).crystalSize = lastMatch crystalSizeRules (lowerStr description) := by
  by_cases hd : description = ""
  · subst hd
    cases imageColors <;> exact ⟨rfl, rfl, rfl, rfl, rfl⟩
  · have hT := applyRules_eq_lastMatch textureRules (lowerStr description)
    have hC := applyRules_eq_lastMatch colorRules (lowerStr description)
    have hH := applyRules_eq_lastMatch hardnessRules (lowerStr description)
    have hL := applyRules_eq_lastMatch lusterRules (lowerStr description)
    have hS := applyRules_eq_lastMatch crystalSizeRules (lowerStr description)
    cases imageColors <;>
      simp only [parseCharacteristics, if_neg hd] <;>
      exact ⟨hT, hC, hH, hL, hS⟩

/-- Claim C7.  Every characteristics input with texture `"vesicular"` that
reaches Tier 2 (no Tier-1 keyword fired, i.e. `tier1Result` is `none`)
classifies as Pumice with confidence 80 when the color is `"light"` and as
Scoria with confidence 75 otherwise. -/
theorem c7_vesicular_branch (c : Characteristics) (htex : c.texture = "vesicular")
    (hns : tier1Result (keywordString c) = none) :
    classifyRock c =
      (if c.color = "light" then
        createRockData "Pumice" "igneous" 80 "Formed from gas-filled volcanic eruptions that create a frothy, lightweight rock" "volcanic" "vesicular"
      else
        createRockData "Scoria" "igneous" 75 "Formed from basaltic or andesitic magma during Strombolian eruptions" "volcanic" "vesicular") := by
  obtain ⟨g1, g2, g3, g4, g5, g6, g7, g8, g9⟩ := tier1_none_all_false _ hns
  unfold classifyRock
  rw [if_neg (by simp [g1]), if_neg (by simp [g2]), if_neg (by simp [g3]),
    if_neg (by simp [g4]), if_neg (by simp [g5]), if_neg (by simp [g6]),
    if_neg (by simp [g7]), if_neg (by simp [g8]), if_neg (by simp [g9]),
    if_neg (by rw [htex]; decide), if_pos (Or.inl htex)]

/-- Claim C1 (code bug).  The claim states that when the external Wikipedia
summary fetch fails, `EnrichedRock.funFacts` equals the static fun-facts
table entry for the rock name (or the generic one-liner) and is never empty.
The code instead produces the empty list: `fetchWikipediaData` resolves with
`{ funFacts: [], image: null }` on failure, and `wikipediaData.funFacts ||
getDefaultFunFacts(...)` never falls back because a JavaScript array — even
an empty one — is truthy.  For every identification, the enriched funFacts
after a failed fetch is `[]`, while the static fallback `getDefaultFunFacts`
is never empty. -/
theorem c1_wiki_failure_funFacts_empty (b : RockData) :
    (enhanceRockData b WikiOutcome.notOkOrError).funFacts = [] ∧
    getDefaultFunFacts b.name ≠ [] :=
  ⟨rfl, getDefaultFunFacts_ne_nil b.name⟩

/-- Claim C2 (counterexample).  The description `"scoria"` contains the
catalog rock name Scoria (lowercased) as a keyword, yet the classifier
returns Granite with confidence 55 via the Tier-4 fallback: Scoria, Gabbro,
Shale and Schist have no Tier-1 direct-mention branch, so the claim fails as
stated. -/
theorem c2_counterexample :
    lowerStr "Scoria" = "scoria" ∧
    "Scoria" ∈ catalogNames ∧
    "scoria" ∈ (parseCharacteristics "scoria" none).keywords ∧
    (classifyRock (parseCharacteristics "scoria" none)).name = "Granite" ∧
    (classifyRock (parseCharacteristics "scoria" none)).name ≠ "Scoria" ∧
    (classifyRock (parseCharacteristics "scoria" none)).confidence = 55 := by
  decide

/-- Claim C2 (amended).  For every description whose whitespace-split
lowercase keyword list contains one of the nine rock names that do have a
Tier-1 branch (granite, basalt, limestone, sandstone, marble, slate,
quartzite, obsidian, pumice), the classifier returns the result of the
first Tier-1 branch whose pattern matches the joined keyword string: a
fixed Tier-1 identification with confidence between 80 and 90, regardless
of any conflicting characteristic words elsewhere in the text. -/
theorem c2_tier1_keyword_amended (d : String)
    (h : (tier1Names.any fun n => (parseCharacteristics d none).keywords.contains n) = true) :
    ∃ r, tier1Result (keywordString (parseCharacteristics d none)) = some r ∧
      classifyRock (parseCharacteristics d none) = r ∧
      r ∈ tier1Branches ∧ 80 ≤ r.confidence ∧ r.confidence ≤ 90 := by
  obtain ⟨n, hn, hcont⟩ := List.any_eq_true.mp h
  have hmem : n ∈ (parseCharacteristics d none).keywords := by simpa using hcont
  have hsub : containsStr (keywordString (parseCharacteristics d none)) n = true := by
    unfold keywordString
    exact contains_joinSpace n _ hmem
  obtain ⟨r, hr⟩ := tier1_isSome_of_name _ n hn hsub
  have hconf := tier1Result_conf _ _ hr
  exact ⟨r, hr, classify_of_tier1 _ _ hr, hconf.1, hconf.2.1, hconf.2.2⟩

/-- Witness for C2 (amended) at the description `"shiny marble rock"`. -/
theorem c2_tier1_keyword_amended_witness :
    ∃ r, tier1Result (keywordString (parseCharacteristics "shiny marble rock" none)) = some r ∧
      classifyRock (parseCharacteristics "shiny marble rock" none) = r ∧
      r ∈ tier1Branches ∧ 80 ≤ r.confidence ∧ r.confidence ≤ 90 :=
  c2_tier1_keyword_amended "shiny marble rock" (by decide)

/-- Claim C3 (code bug).  The claim states that when the location lookup is
unavailable or returns no locations, the enriched `locations` equals the
static per-rock-type default list and is non-empty.  The location stub
always resolves with an empty array, and `locationData.locations ||
getDefaultLocations(...)` keeps that empty array because arrays are truthy
in JavaScript: the enriched locations are always `[]`, while the per-type
default list `getDefaultLocations` is never empty. -/
theorem c3_locations_always_empty (b : RockData) (w : WikiOutcome) :
    (enhanceRockData b w).locations = [] ∧
    getDefaultLocations b.type ≠ [] :=
  ⟨rfl, getDefaultLocations_ne_nil b.type⟩

/-- Claim C4.  For the empty description and no image analysis, the
extractor yields characteristics with all five dimensions `"unknown"` and an
empty keyword list, and the classifier on that result returns the Tier-4
final fallback: Granite, igneous, confidence 55. -/
theorem c4_empty_description_fallback :
    parseCharacteristics "" none =
      { texture := "unknown", color := "unknown", hardness := "unknown",
        luster := "unknown", crystalSize := "unknown", keywords := [],
        dominantColors := none } ∧
    classifyRock (parseCharacteristics "" none) =
      createRockData "Granite" "igneous" 55 "Common igneous rock formed from cooling magma - identification needs more specific details" "plutonic" "phaneritic" := by
  decide

/-- Claim C6.  For the description `"glassy shiny volcanic rock"` the
extractor resolves texture to `"glassy"`, and the classifier returns the
glassy-branch Obsidian with confidence 85 (the glassy branch precedes the
vesicular and coarse rules). -/
theorem c6_glassy_obsidian :
    (parseCharacteristics "glassy shiny volcanic rock" none).texture = "glassy" ∧
    classifyRock (parseCharacteristics "glassy shiny volcanic rock" none) =
      createRockData "Obsidian" "igneous" 85 "Formed from rapid cooling of volcanic glass, preventing crystal formation" "volcanic" "glassy" := by
  decide

/-- Witness for C7 at the concrete description
`"porous light volcanic foam"`: texture `"vesicular"`, color `"light"`,
classified as Pumice with confidence 80. -/
theorem c7_vesicular_branch_witness :
    (parseCharacteristics "porous light volcanic foam" none).texture = "vesicular" ∧
    (parseCharacteristics "porous light volcanic foam" none).color = "light" ∧
    classifyRock (parseCharacteristics "porous light volcanic foam" none) =
      createRockData "Pumice" "igneous" 80 "Formed from gas-filled volcanic eruptions that create a frothy, lightweight rock" "volcanic" "vesicular" := by
  refine ⟨by decide, by decide, ?_⟩
  have h := c7_vesicular_branch (parseCharacteristics "porous light volcanic foam" none)
    (by decide) (by decide)
  rw [h]
  have hc : (parseCharacteristics "porous light volcanic foam" none).color = "light" := by decide
  rw [hc]
  decide

/-- Claim C8 (counterexample).  For the rock name Rhyolite — absent from
every static reference table — with a failed summary fetch, the enriched
`funFacts` list is empty, not a non-empty generic fallback, so the claim
fails as stated (same array-truthiness slip as C1). -/
theorem c8_counterexample :
    compositionMap.lookup "Rhyolite" = none ∧
    usesMap.lookup "Rhyolite" = none ∧
    classificationMap.lookup "Rhyolite" = none ∧
    funFactsMap.lookup "Rhyolite" = none ∧
    (enhanceRockData (createRockData "Rhyolite" "igneous" 70 "volcanic origin" "volcanic" "aphanitic")
      WikiOutcome.notOkOrError).funFacts = [] := by
  decide

/-- Claim C8 (amended).  For every identification whose rock name is absent
from the static reference tables, enrichment returns the non-empty generic
composition and uses fallbacks and a classification whose group string is
the rock type followed by `" rock"` (hence contains the supplied rock type);
the static fun-facts fallback for such a name is the non-empty generic
one-liner.  (The enriched `funFacts` field itself is empty when the summary
fetch fails — the C1 code bug — so the original non-empty-funFacts
conjunct of the claim is dropped.) -/
theorem c8_unknown_name_fallbacks (name type : String) (conf : Nat)
    (formation subtype textureType : String) (w : WikiOutcome)
    (hc : compositionMap.lookup name = none) (hu : usesMap.lookup name = none)
    (hcl : classificationMap.lookup name = none) (hf : funFactsMap.lookup name = none) :
    (enhanceRockData (createRockData name type conf formation subtype textureType) w).composition =
      ["Mineral composition varies"] ∧
    (enhanceRockData (createRockData name type conf formation subtype textureType) w).uses =
      ["Various industrial and construction applications"] ∧
    (enhanceRockData (createRockData name type conf formation subtype textureType) w).classification =
      { group := type ++ " rock", family := none, series := none } ∧
    (∃ pre post,
      (enhanceRockData (createRockData name type conf formation subtype textureType) w).classification.group.data =
        pre ++ type.data ++ post) ∧
    getDefaultFunFacts name =
      [name ++ " has unique geological properties that make it scientifically interesting."] ∧
    getDefaultFunFacts name ≠ [] := by
  refine ⟨?_, ?_, ?_, ?_, ?_, getDefaultFunFacts_ne_nil name⟩
  · show getComposition name = _
    unfold getComposition
    rw [hc]
  · show getUses name = _
    unfold getUses
    rw [hu]
  · show getClassification name type = _
    unfold getClassification
    rw [hcl]
  · refine ⟨[], " rock".data, ?_⟩
    show (getClassification name type).group.data = _
    unfold getClassification
    rw [hcl]
    simp [strData_append]
  · unfold getDefaultFunFacts
    rw [hf]

/-- Witness for C8 (amended) at the unknown rock name Rhyolite. -/
theorem c8_unknown_name_fallbacks_witness :
    (enhanceRockData (createRockData "Rhyolite" "igneous" 70 "volcanic" "volcanic" "fine")
      (WikiOutcome.ok none none)).composition = ["Mineral composition varies"] ∧
    (enhanceRockData (createRockData "Rhyolite" "igneous" 70 "volcanic" "volcanic" "fine")
      (WikiOutcome.ok none none)).uses = ["Various industrial and construction applications"] ∧
    (enhanceRockData (createRockData "Rhyolite" "igneous" 70 "volcanic" "volcanic" "fine")
      (WikiOutcome.ok none none)).classification =
      { group := "igneous" ++ " rock", family := none, series := none } ∧
    (∃ pre post,
      (enhanceRockData (createRockData "Rhyolite" "igneous" 70 "volcanic" "volcanic" "fine")
        (WikiOutcome.ok none none)).classification.group.data =
        pre ++ "igneous".data ++ post) ∧
    getDefaultFunFacts "Rhyolite" =
      ["Rhyolite" ++ " has unique geological properties that make it scientifically interesting."] ∧
    getDefaultFunFacts "Rhyolite" ≠ [] :=
  c8_unknown_name_fallbacks "Rhyolite" "igneous" 70 "volcanic" "volcanic" "fine"
    (WikiOutcome.ok none none) (by decide) (by decide) (by decide) (by decide)

/-- Claim C9.  Every classifier result has confidence at most 100 (it is a
`Nat`, hence at least 0) and is one of the fixed branch records; every
Tier-1 branch record has confidence in 80–90, every Tier-2 branch record in
65–85, every Tier-3 branch record in 55–65, and the Tier-4 fallback has
confidence 55. -/
theorem c9_confidence_ranges (c : Characteristics) :
    (classifyRock c).confidence ≤ 100 ∧
    classifyRock c ∈ allBranchResults ∧
    (tier1Branches.all fun r => decide (80 ≤ r.confidence) && decide (r.confidence ≤ 90)) = true ∧
    (tier2Branches.all fun r => decide (65 ≤ r.confidence) && decide (r.confidence ≤ 85)) = true ∧
    (tier3Branches.all fun r => decide (55 ≤ r.confidence) && decide (r.confidence ≤ 65)) = true ∧
    tier4Branch.confidence = 55 := by
  have hm := classify_mem_branches c
  have hall : ∀ r ∈ allBranchResults, r.confidence ≤ 100 := by decide
  exact ⟨hall _ hm, hm, by decide, by decide, by decide, by decide⟩

/-- Claim C10.  The classifier always returns one of the fixed branch
records; its name is drawn from the thirteen-name catalog, is never an
`"unknown"` sentinel, and each name is always paired with the same fixed
rock type. -/
theorem c10_catalog_invariant (c : Characteristics) :
    classifyRock c ∈ allBranchResults ∧
    (classifyRock c).name ∈ catalogNames ∧
    (classifyRock c).name ≠ "unknown" ∧
    (classifyRock c).type = rockTypeOf (classifyRock c).name := by
  have hm := classify_mem_branches c
  have hall : ∀ r ∈ allBranchResults,
      r.name ∈ catalogNames ∧ r.name ≠ "unknown" ∧ r.type = rockTypeOf r.name := by decide
  exact ⟨hm, (hall _ hm).1, (hall _ hm).2.1, (hall _ hm).2.2⟩
